import Mathlib

/-!
Shallow embedding of `terraform/lambda/backup_orchestrator.py`.

The Python module is linear orchestration code: a Lambda `handler` runs four
backup steps in order (`backup_kubernetes_resources`, `verify_rds_backups`,
`backup_application_data`, `upload_backup_metadata`), appends each result
dictionary to `backup_results['backup_operations']`, derives an overall
status with `check_backup_health`, and returns `{statusCode, body}`.

External collaborators (AWS clients) are modelled as record fields holding
`Except String`-valued operations: `Except.error msg` models a raised Python
exception whose `str(e)` is `msg`.  Python dictionaries with a fixed key set
become structures; keys that are only sometimes present become `Option`
fields defaulting to `none` (matching `dict.get` returning `None`).
Timestamps are opaque strings supplied as parameters.
-/

/-- One entry of the `backup_status` list built by `verify_rds_backups`:
per-instance backup health. `recent_snapshots` is `none` on the
retention-disabled branch, which omits that key. -/
structure InstanceBackupStatus where
  instance_id : String
  backup_retention_days : Int
  recent_snapshots : Option Nat := none
  status : String
deriving DecidableEq, Repr

/-- The `backup_metadata` dictionary built by `backup_kubernetes_resources`. -/
structure K8sMetadata where
  cluster_name : String
  backup_timestamp : String
  backup_type : String
  namespaces : List String
  resources_backed_up : List String
deriving DecidableEq, Repr

/-- One entry of `app_backup_items` in `backup_application_data`. -/
structure AppBackupItem where
  type : String
  description : String
  size_mb : Nat
  status : String
deriving DecidableEq, Repr

/-- The `backup_manifest` dictionary built by `backup_application_data`. -/
structure AppManifest where
  backup_timestamp : String
  environment : String
  backup_items : List AppBackupItem
  total_size_mb : Nat
deriving DecidableEq, Repr

/-- The result dictionary returned by one backup operation.  Each Python
step returns a dict with `operation`, `status` and operation-specific keys;
absent keys are `none`.  `status` is itself an `Option` because
`check_backup_health` reads it with `op.get('status')`, which yields `None`
when the key is missing. -/
structure StepResult where
  operation : Option String := none
  status : Option String := none
  message : Option String := none
  error : Option String := none
  backup_location : Option String := none
  location : Option String := none
  metadata : Option K8sMetadata := none
  manifest : Option AppManifest := none
  instances : Option (List InstanceBackupStatus) := none
deriving DecidableEq, Repr

/-- The `backup_results` dictionary: timestamp, run context, the ordered
list of step results, and the two keys (`overall_status`, `error`) that the
handler adds later, absent (`none`) until assigned. -/
structure Report where
  timestamp : String
  environment : String
  cluster_name : String
  backup_operations : List StepResult
  overall_status : Option String := none
  error : Option String := none
deriving DecidableEq, Repr

/-- The environment variables read at module load:
`CLUSTER_NAME`, `S3_BUCKET`, `ENVIRONMENT`. -/
structure LambdaEnv where
  cluster_name : String
  s3_bucket : String
  environment : String
deriving DecidableEq, Repr

/-- `check_backup_health`: derive the overall status from
`backup_results['backup_operations']`.  Empty list gives FAILED; any entry
whose `status` equals `'FAILED'` gives FAILED; else any `'WARNING'` entry
gives WARNING; else SUCCESS. -/
def check_backup_health (backup_results : Report) : String :=
  let operations := backup_results.backup_operations
  if operations.isEmpty then "FAILED"
  else
    let failed_operations := operations.filter (fun op => op.status == some "FAILED")
    let warning_operations := operations.filter (fun op => op.status == some "WARNING")
    if !failed_operations.isEmpty then "FAILED"
    else if !warning_operations.isEmpty then "WARNING"
    else "SUCCESS"

/-- A report carrying just a list of step results, used to state properties
of `check_backup_health` as a function of the `backup_operations` sequence
alone (the only key it reads). -/
def reportOf (ops : List StepResult) : Report :=
  { timestamp := "", environment := "", cluster_name := "", backup_operations := ops }

/-- Python substring test `needle in haystack`, matched from the front. -/
def charsLeadMatch : List Char → List Char → Bool
  | [], _ => true
  | _ :: _, [] => false
  | a :: as, b :: bs => a == b && charsLeadMatch as bs

/-- Python substring test `needle in haystack`: some suffix of the haystack
starts with the needle. -/
def charsContain (needle : List Char) : List Char → Bool
  | [] => charsLeadMatch needle []
  | b :: bs => charsLeadMatch needle (b :: bs) || charsContain needle bs

/-- Python's `sub in s` on strings (substring containment), used by
`verify_rds_backups` as `ENVIRONMENT in instance['DBInstanceIdentifier']`. -/
def pyIn (needle haystack : String) : Bool :=
  charsContain needle.toList haystack.toList

/-- The payload handed to `s3_client.put_object`: each call site serializes
one of three dictionaries with `json.dumps`; the payload is abstracted as
the dictionary itself. -/
inductive S3Body where
  | k8sMetadata : K8sMetadata → S3Body
  | appManifest : AppManifest → S3Body
  | report : Report → S3Body
deriving DecidableEq

/-- The `s3_client` collaborator: `put_object(Key, Body)` either succeeds or
raises (`Except.error msg`). -/
structure S3World where
  putObject : String → S3Body → Except String Unit

/-- The `eks_client` collaborator: `describe_cluster` yields the cluster's
`status` string or raises. -/
structure EKSWorld where
  describeCluster : Except String String

/-- One RDS instance as read from `describe_db_instances`:
`DBInstanceIdentifier` plus `BackupRetentionPeriod`, the latter optional
because the code reads it with `.get('BackupRetentionPeriod', 0)`. -/
structure DBInstance where
  dbInstanceIdentifier : String
  backupRetentionPeriod : Option Int := none
deriving DecidableEq, Repr

/-- The `rds_client` collaborator: `describe_db_instances` yields the
instance list or raises; `describe_db_snapshots` yields the number of
automated snapshots returned (`len(snapshots['DBSnapshots'])`) for a given
instance identifier, or raises. -/
structure RDSWorld where
  describeDBInstances : Except String (List DBInstance)
  describeDBSnapshots : String → Except String Nat

/-- `backup_kubernetes_resources`: describe the cluster; if its status is
not `ACTIVE` return SKIPPED; otherwise build the backup metadata, upload it
to S3 and return SUCCESS with the backup location; any raise inside is
caught and turned into a FAILED result carrying `str(e)`. -/
def backup_kubernetes_resources (lenv : LambdaEnv) (eks : EKSWorld) (s3 : S3World)
    (backup_timestamp : String) : StepResult :=
  match (do
    let cluster_status ← eks.describeCluster
    if cluster_status ≠ "ACTIVE" then
      Except.ok { operation := some "kubernetes_backup", status := some "SKIPPED",
                  message := some ("Cluster status is " ++ cluster_status ++ ", skipping backup") }
    else
      let backup_key := "k8s-backups/" ++ lenv.environment ++ "/" ++ backup_timestamp ++ "/cluster-backup.tar.gz"
      let backup_metadata : K8sMetadata :=
        { cluster_name := lenv.cluster_name,
          backup_timestamp := backup_timestamp,
          backup_type := "full",
          namespaces := ["agentscan", "kube-system", "monitoring"],
          resources_backed_up := ["deployments", "services", "configmaps", "secrets",
                                  "persistentvolumeclaims", "ingresses"] }
      let _ ← s3.putObject ("k8s-backups/" ++ lenv.environment ++ "/" ++ backup_timestamp ++ "/metadata.json")
                (S3Body.k8sMetadata backup_metadata)
      Except.ok { operation := some "kubernetes_backup", status := some "SUCCESS",
                  backup_location := some ("s3://" ++ lenv.s3_bucket ++ "/" ++ backup_key),
                  metadata := some backup_metadata } : Except String StepResult) with
  | Except.ok r => r
  | Except.error e =>
      { operation := some "kubernetes_backup", status := some "FAILED", error := some e }

/-- The per-instance loop body of `verify_rds_backups`: for each matching
instance, read the retention; with retention > 0 count recent automated
snapshots (HEALTHY if any, else WARNING), with retention 0 record DISABLED;
an exception from `describe_db_snapshots` propagates out of the loop. -/
def rdsStatusList (world : RDSWorld) : List DBInstance → Except String (List InstanceBackupStatus)
  | [] => Except.ok []
  | inst :: rest => do
      let backup_retention := inst.backupRetentionPeriod.getD 0
      let entry ←
        if backup_retention > 0 then do
          let recent_snapshots ← world.describeDBSnapshots inst.dbInstanceIdentifier
          Except.ok { instance_id := inst.dbInstanceIdentifier,
                      backup_retention_days := backup_retention,
                      recent_snapshots := some recent_snapshots,
                      status := if recent_snapshots > 0 then "HEALTHY" else "WARNING" }
        else
          Except.ok ({ instance_id := inst.dbInstanceIdentifier,
                       backup_retention_days := backup_retention,
                       status := "DISABLED" } : InstanceBackupStatus)
      let tail ← rdsStatusList world rest
      Except.ok (entry :: tail)

/-- `verify_rds_backups`: list the RDS instances, keep those whose
identifier contains the environment name, compute per-instance backup
health, and aggregate to SUCCESS when every per-instance status is HEALTHY
or WARNING, else FAILED; any raise is caught into a FAILED result. -/
def verify_rds_backups (environment : String) (world : RDSWorld) : StepResult :=
  match (do
    let db_instances ← world.describeDBInstances
    let agentscan_instances := db_instances.filter
      (fun inst => pyIn environment inst.dbInstanceIdentifier)
    let backup_status ← rdsStatusList world agentscan_instances
    let overall_rds_status :=
      if backup_status.all (fun s => s.status == "HEALTHY" || s.status == "WARNING")
      then "SUCCESS" else "FAILED"
    Except.ok { operation := some "rds_backup_verification", status := some overall_rds_status,
                instances := some backup_status } : Except String StepResult) with
  | Except.ok r => r
  | Except.error e =>
      { operation := some "rds_backup_verification", status := some "FAILED", error := some e }

/-- The fixed `app_backup_items` catalogue of `backup_application_data`. -/
def app_backup_items : List AppBackupItem :=
  [{ type := "configuration", description := "Application configuration files",
     size_mb := 5, status := "SUCCESS" },
   { type := "scan_results", description := "Historical scan results and reports",
     size_mb := 1024, status := "SUCCESS" },
   { type := "ml_models", description := "Machine learning model artifacts",
     size_mb := 256, status := "SUCCESS" },
   { type := "audit_logs", description := "Security and audit logs",
     size_mb := 128, status := "SUCCESS" }]

/-- `backup_application_data`: build the fixed backup manifest, upload it to
S3, and return SUCCESS with the backup location; any raise is caught into a
FAILED result. -/
def backup_application_data (lenv : LambdaEnv) (s3 : S3World)
    (backup_timestamp : String) : StepResult :=
  match (do
    let backup_manifest : AppManifest :=
      { backup_timestamp := backup_timestamp,
        environment := lenv.environment,
        backup_items := app_backup_items,
        total_size_mb := (app_backup_items.map (fun item => item.size_mb)).sum }
    let manifest_key := "app-backups/" ++ lenv.environment ++ "/" ++ backup_timestamp ++ "/manifest.json"
    let _ ← s3.putObject manifest_key (S3Body.appManifest backup_manifest)
    Except.ok { operation := some "application_data_backup", status := some "SUCCESS",
                backup_location := some ("s3://" ++ lenv.s3_bucket ++ "/app-backups/" ++ lenv.environment ++ "/" ++ backup_timestamp ++ "/"),
                manifest := some backup_manifest } : Except String StepResult) with
  | Except.ok r => r
  | Except.error e =>
      { operation := some "application_data_backup", status := some "FAILED", error := some e }

/-- `upload_backup_metadata`: serialize the report-so-far and write it to
S3 under `backup-reports/<env>/<ts>/backup-report.json`; SUCCESS with the
location on success, otherwise a FAILED result carrying `str(e)`. -/
def upload_backup_metadata (lenv : LambdaEnv) (s3 : S3World) (ts : String)
    (backup_results : Report) : StepResult :=
  let metadata_key := "backup-reports/" ++ lenv.environment ++ "/" ++ ts ++ "/backup-report.json"
  match s3.putObject metadata_key (S3Body.report backup_results) with
  | Except.ok _ =>
      { operation := some "metadata_upload", status := some "SUCCESS",
        location := some ("s3://" ++ lenv.s3_bucket ++ "/" ++ metadata_key) }
  | Except.error e =>
      { operation := some "metadata_upload", status := some "FAILED", error := some e }

/-- The four step invocations made inside the handler's `try` block, each
able to raise (modelling a contract violation escaping a step's own
handling).  The metadata step receives the report built so far, as
`upload_backup_metadata(backup_results)` does. -/
structure HandlerWorld where
  k8sStep : Except String StepResult
  rdsStep : Except String StepResult
  appStep : Except String StepResult
  metadataStep : Report → Except String StepResult

/-- The structured value returned by the handler:
`{'statusCode': ..., 'body': json.dumps(backup_results)}` with the body
kept as the report dictionary it serializes. -/
structure HandlerResponse where
  statusCode : Nat
  body : Report
deriving DecidableEq, Repr

/-- The sequence of the four step calls and in-place appends from the
handler's `try` block.  On a raise, the exception and the report as mutated
so far propagate to the handler's `except` branch. -/
def handlerSteps (r0 : Report) (w : HandlerWorld) : Except (String × Report) Report :=
  match w.k8sStep with
  | Except.error e => Except.error (e, r0)
  | Except.ok k8s_backup_result =>
    let r1 := { r0 with backup_operations := r0.backup_operations ++ [k8s_backup_result] }
    match w.rdsStep with
    | Except.error e => Except.error (e, r1)
    | Except.ok rds_backup_result =>
      let r2 := { r1 with backup_operations := r1.backup_operations ++ [rds_backup_result] }
      match w.appStep with
      | Except.error e => Except.error (e, r2)
      | Except.ok app_data_result =>
        let r3 := { r2 with backup_operations := r2.backup_operations ++ [app_data_result] }
        match w.metadataStep r3 with
        | Except.error e => Except.error (e, r3)
        | Except.ok metadata_result =>
          Except.ok { r3 with backup_operations := r3.backup_operations ++ [metadata_result] }

/-- `handler`: build the initial report from the timestamp and environment
context, run the four steps, set `overall_status` from
`check_backup_health` and return status code 200; if an exception escapes a
step call, record `error` and `overall_status = FAILED` on the report as
mutated so far and return status code 500. -/
def handler (lenv : LambdaEnv) (ts : String) (w : HandlerWorld) : HandlerResponse :=
  let backup_results : Report :=
    { timestamp := ts, environment := lenv.environment,
      cluster_name := lenv.cluster_name, backup_operations := [] }
  match handlerSteps backup_results w with
  | Except.ok r =>
      let overall_status := check_backup_health r
      { statusCode := 200, body := { r with overall_status := some overall_status } }
  | Except.error (e, soFar) =>
      { statusCode := 500,
        body := { soFar with error := some e, overall_status := some "FAILED" } }

/-- The handler's step calls as wired in the source: each step call invokes
the corresponding module function, none of which can raise (each catches
internally), against the given AWS collaborators.  `ts` is the
`YYYYMMDD-HHMMSS` timestamp the steps format internally. -/
def realHandlerWorld (lenv : LambdaEnv) (eks : EKSWorld) (s3 : S3World) (rds : RDSWorld)
    (ts : String) : HandlerWorld :=
  { k8sStep := Except.ok (backup_kubernetes_resources lenv eks s3 ts),
    rdsStep := Except.ok (verify_rds_backups lenv.environment rds),
    appStep := Except.ok (backup_application_data lenv s3 ts),
    metadataStep := fun r => Except.ok (upload_backup_metadata lenv s3 ts r) }

/-- The Lambda entry point with the concrete steps wired in: `tsIso` is the
ISO timestamp stamped on the report, `ts` the `YYYYMMDD-HHMMSS` timestamp
used inside the steps. -/
def lambda_handler (lenv : LambdaEnv) (eks : EKSWorld) (s3 : S3World) (rds : RDSWorld)
    (tsIso ts : String) : HandlerResponse :=
  handler lenv tsIso (realHandlerWorld lenv eks s3 rds ts)

/-- A concrete environment context for counterexamples and witnesses. -/
def envProd : LambdaEnv := { cluster_name := "main", s3_bucket := "bkt", environment := "prod" }

/-- An EKS collaborator whose cluster is ACTIVE. -/
def eksActive : EKSWorld := { describeCluster := Except.ok "ACTIVE" }

/-- An S3 collaborator whose writes always succeed. -/
def s3AlwaysOk : S3World := { putObject := fun _ _ => Except.ok () }

/-- An S3 collaborator that raises exactly on the serialized-report write
(the metadata-upload step's storage write) and succeeds on every other
write. -/
def s3ReportWriteFails : S3World :=
  { putObject := fun _ b => match b with
      | S3Body.report _ => Except.error "AccessDenied"
      | _ => Except.ok () }

/-- An S3 collaborator that accepts a serialized report exactly when the
report being persisted already carries an `overall_status`; a write of a
report without `overall_status` raises.  The metadata-upload step therefore
reports FAILED precisely when the persisted copy lacked `overall_status`. -/
def s3RequiresOverallStatus : S3World :=
  { putObject := fun _ b => match b with
      | S3Body.report rep =>
          if rep.overall_status = none
          then Except.error "report persisted without overall_status"
          else Except.ok ()
      | _ => Except.ok () }

/-- An RDS collaborator with no instances at all. -/
def rdsNoInstances : RDSWorld :=
  { describeDBInstances := Except.ok [], describeDBSnapshots := fun _ => Except.ok 0 }

/-- An RDS collaborator with exactly two instances matching environment
`prod`: one with backup retention 0 and one with retention 7 and three
recent automated snapshots. -/
def rdsOneDisabledOneHealthy : RDSWorld :=
  { describeDBInstances := Except.ok
      [{ dbInstanceIdentifier := "prod-db-a", backupRetentionPeriod := some 0 },
       { dbInstanceIdentifier := "prod-db-b", backupRetentionPeriod := some 7 }],
    describeDBSnapshots := fun _ => Except.ok 3 }

/-- An RDS collaborator with a single instance whose identifier does not
contain the environment name `prod`. -/
def rdsNoMatch : RDSWorld :=
  { describeDBInstances := Except.ok
      [{ dbInstanceIdentifier := "other-db", backupRetentionPeriod := some 7 }],
    describeDBSnapshots := fun _ => Except.ok 3 }

/-- A step list whose filter by a pointwise-false predicate is empty. -/
theorem filterNilOfForall (p : StepResult → Bool) (ops : List StepResult)
    (h : ∀ op ∈ ops, p op = false) : ops.filter p = [] := by
  induction ops with
  | nil => rfl
  | cons a as ih =>
      rw [List.filter_cons, h a (List.mem_cons_self a as)]
      simp only [Bool.false_eq_true, if_false]
      exact ih (fun op hm => h op (List.mem_cons_of_mem a hm))

/-- C1 counterexample: in a run in which every step's internal handling
works but the metadata-upload step's storage write raises, the handler
still returns status code 200 (not 500 as the claim states), while the
body's `overall_status` is FAILED — the first three step results are
SUCCESS and only the metadata-upload result is FAILED. -/
theorem c1_sink_failure_counterexample :
    (lambda_handler envProd eksActive s3ReportWriteFails rdsNoInstances "T0" "t0").body.overall_status = some "FAILED" ∧
    ((lambda_handler envProd eksActive s3ReportWriteFails rdsNoInstances "T0" "t0").body.backup_operations.map
        (fun op => op.status)) = [some "SUCCESS", some "SUCCESS", some "SUCCESS", some "FAILED"] ∧
    (lambda_handler envProd eksActive s3ReportWriteFails rdsNoInstances "T0" "t0").statusCode = 200 ∧
    (lambda_handler envProd eksActive s3ReportWriteFails rdsNoInstances "T0" "t0").statusCode ≠ 500 :=
  ⟨rfl, rfl, rfl, by decide⟩

/-- C1 (amended): the handler returns status code 200 whenever no
exception escapes a step call — in particular always with the concrete
steps wired in, since each catches internally — regardless of
`overall_status`; 500 occurs exactly on an orchestrator-level exception,
and then `overall_status` is FAILED and `error` is set. -/
theorem c1_status_codes_amended :
    (∀ lenv eks s3 rds tsIso ts,
        (lambda_handler lenv eks s3 rds tsIso ts).statusCode = 200) ∧
    (∀ lenv ts w, (handler lenv ts w).statusCode = 200 ∨
        ((handler lenv ts w).statusCode = 500 ∧
         (handler lenv ts w).body.overall_status = some "FAILED" ∧
         (handler lenv ts w).body.error ≠ none)) := by
  constructor
  · intro lenv eks s3 rds tsIso ts; rfl
  · intro lenv ts w
    cases hs : handlerSteps
        { timestamp := ts, environment := lenv.environment,
          cluster_name := lenv.cluster_name, backup_operations := [] } w with
    | ok r => left; simp [handler, hs]
    | error p =>
        right
        obtain ⟨e, soFar⟩ := p
        simp [handler, hs]

/-- C2 counterexample: against a sink that accepts the serialized report
exactly when it already carries `overall_status`, the metadata-upload step
comes back FAILED with the discriminating error message — so the persisted
copy of the report did not contain `overall_status`, contrary to the
claim that `overall_status` is set before the report is persisted. -/
theorem c2_persisted_lacks_overall_status_counterexample :
    ((lambda_handler envProd eksActive s3RequiresOverallStatus rdsNoInstances "T0" "t0").body.backup_operations.drop 3)
      = [{ operation := some "metadata_upload", status := some "FAILED",
           error := some "report persisted without overall_status" }] ∧
    (lambda_handler envProd eksActive s3RequiresOverallStatus rdsNoInstances "T0" "t0").body.overall_status = some "FAILED" :=
  ⟨rfl, rfl⟩

/-- C2 (amended): in every non-aborting run the report handed to
`upload_backup_metadata` (and hence to the sink) is the report after the
first three steps, which carries no `overall_status`; `overall_status` is
computed only after persistence, so the returned report differs from the
persisted copy by both the persistence step's own StepResult and the
presence of `overall_status`. -/
theorem c2_persist_order_amended (lenv : LambdaEnv) (eks : EKSWorld) (s3 : S3World)
    (rds : RDSWorld) (tsIso ts : String) :
    (lambda_handler lenv eks s3 rds tsIso ts =
      { statusCode := 200,
        body :=
          { timestamp := tsIso, environment := lenv.environment,
            cluster_name := lenv.cluster_name,
            backup_operations :=
              [backup_kubernetes_resources lenv eks s3 ts,
               verify_rds_backups lenv.environment rds,
               backup_application_data lenv s3 ts,
               upload_backup_metadata lenv s3 ts
                 { timestamp := tsIso, environment := lenv.environment,
                   cluster_name := lenv.cluster_name,
                   backup_operations :=
                     [backup_kubernetes_resources lenv eks s3 ts,
                      verify_rds_backups lenv.environment rds,
                      backup_application_data lenv s3 ts] }],
            overall_status := some (check_backup_health
              { timestamp := tsIso, environment := lenv.environment,
                cluster_name := lenv.cluster_name,
                backup_operations :=
                  [backup_kubernetes_resources lenv eks s3 ts,
                   verify_rds_backups lenv.environment rds,
                   backup_application_data lenv s3 ts,
                   upload_backup_metadata lenv s3 ts
                     { timestamp := tsIso, environment := lenv.environment,
                       cluster_name := lenv.cluster_name,
                       backup_operations :=
                         [backup_kubernetes_resources lenv eks s3 ts,
                          verify_rds_backups lenv.environment rds,
                          backup_application_data lenv s3 ts] }] }) } }) ∧
    (Report.overall_status
       { timestamp := tsIso, environment := lenv.environment,
         cluster_name := lenv.cluster_name,
         backup_operations :=
           [backup_kubernetes_resources lenv eks s3 ts,
            verify_rds_backups lenv.environment rds,
            backup_application_data lenv s3 ts] } = none) :=
  ⟨rfl, rfl⟩

/-- C3 counterexample: with exactly two managed resources, one with
retention 0 (per-resource status DISABLED) and one HEALTHY, the
verification step's aggregated status is FAILED, not SUCCESS as the claim
states, because DISABLED is outside the HEALTHY-or-WARNING check. -/
theorem c3_scenario_counterexample :
    (verify_rds_backups "prod" rdsOneDisabledOneHealthy).instances = some
      [{ instance_id := "prod-db-a", backup_retention_days := 0,
         recent_snapshots := none, status := "DISABLED" },
       { instance_id := "prod-db-b", backup_retention_days := 7,
         recent_snapshots := some 3, status := "HEALTHY" }] ∧
    (verify_rds_backups "prod" rdsOneDisabledOneHealthy).status = some "FAILED" ∧
    (verify_rds_backups "prod" rdsOneDisabledOneHealthy).status ≠ some "SUCCESS" :=
  ⟨rfl, rfl, by decide⟩

/-- C3 (amended): when the backup-verification step observes exactly two
managed resources, one with retention 0 (per-resource health DISABLED) and
one HEALTHY, the step's own aggregated status is FAILED. -/
theorem c3_disabled_resource_yields_failed_amended
    (environment id1 id2 : String) (r : Int) (n : Nat)
    (snap : String → Except String Nat)
    (h1 : pyIn environment id1 = true) (h2 : pyIn environment id2 = true)
    (hr : 0 < r) (hs : snap id2 = Except.ok n) (hn : 0 < n) :
    verify_rds_backups environment
      { describeDBInstances := Except.ok
          [{ dbInstanceIdentifier := id1, backupRetentionPeriod := some 0 },
           { dbInstanceIdentifier := id2, backupRetentionPeriod := some r }],
        describeDBSnapshots := snap }
      = { operation := some "rds_backup_verification", status := some "FAILED",
          instances := some
            [{ instance_id := id1, backup_retention_days := 0,
               recent_snapshots := none, status := "DISABLED" },
             { instance_id := id2, backup_retention_days := r,
               recent_snapshots := some n, status := "HEALTHY" }] } := by
  unfold verify_rds_backups
  simp only [bind, Except.bind, List.filter_cons, h1, h2, if_true]
  simp only [rdsStatusList, Option.getD, gt_iff_lt, lt_self_iff_false, if_false,
    hr, if_true, hs, bind, Except.bind, hn, List.filter_nil]
  simp [hn]

/-- C3 witness: the amended theorem applied to the concrete two-instance
scenario of the counterexample's collaborator. -/
theorem c3_disabled_resource_yields_failed_witness :
    pyIn "prod" "prod-db-a" = true ∧ pyIn "prod" "prod-db-b" = true ∧
    verify_rds_backups "prod"
      { describeDBInstances := Except.ok
          [{ dbInstanceIdentifier := "prod-db-a", backupRetentionPeriod := some 0 },
           { dbInstanceIdentifier := "prod-db-b", backupRetentionPeriod := some 7 }],
        describeDBSnapshots := fun _ => Except.ok 3 }
      = { operation := some "rds_backup_verification", status := some "FAILED",
          instances := some
            [{ instance_id := "prod-db-a", backup_retention_days := 0,
               recent_snapshots := none, status := "DISABLED" },
             { instance_id := "prod-db-b", backup_retention_days := 7,
               recent_snapshots := some 3, status := "HEALTHY" }] } :=
  ⟨by decide, by decide,
    c3_disabled_resource_yields_failed_amended "prod" "prod-db-a" "prod-db-b" 7 3
      (fun _ => Except.ok 3) (by decide) (by decide) (by decide) rfl (by decide)⟩

/-- C4: `check_backup_health` yields FAILED on an empty operation list, and
FAILED for every list containing at least one entry whose status is FAILED,
regardless of position or of any WARNING or SKIPPED entries present. -/
theorem c4_evaluate_failed_rules :
    check_backup_health (reportOf []) = "FAILED" ∧
    ∀ ops : List StepResult, (∃ op ∈ ops, op.status = some "FAILED") →
      check_backup_health (reportOf ops) = "FAILED" := by
  refine ⟨by decide, ?_⟩
  intro ops h
  obtain ⟨op, hmem, hst⟩ := h
  have hne : ops ≠ [] := by
    intro h0; rw [h0] at hmem; exact absurd hmem (List.not_mem_nil op)
  have hempty : ops.isEmpty = false := by
    cases ops with
    | nil => exact absurd rfl hne
    | cons a as => rfl
  have hfil : op ∈ ops.filter (fun op => op.status == some "FAILED") :=
    List.mem_filter.mpr ⟨hmem, by simp [hst]⟩
  have hfe : (ops.filter (fun op => op.status == some "FAILED")).isEmpty = false := by
    cases hh : ops.filter (fun op => op.status == some "FAILED") with
    | nil => rw [hh] at hfil; exact absurd hfil (List.not_mem_nil op)
    | cons a as => rfl
  simp [check_backup_health, reportOf, hempty, hfe]

/-- C4 witness: the FAILED rule applied to a list holding one WARNING, one
SKIPPED and one FAILED entry. -/
theorem c4_evaluate_failed_rules_witness :
    check_backup_health (reportOf
      [{ status := some "WARNING" }, { status := some "FAILED" }, { status := some "SKIPPED" }]) = "FAILED" :=
  c4_evaluate_failed_rules.2
    [{ status := some "WARNING" }, { status := some "FAILED" }, { status := some "SKIPPED" }]
    ⟨{ status := some "FAILED" }, by simp, rfl⟩

/-- C5 counterexample: the empty sequence contains no FAILED entry and
every entry of it (vacuously) has status SUCCESS or SKIPPED, yet
`check_backup_health` yields FAILED, not SUCCESS — the claim fails on the
empty sequence. -/
theorem c5_empty_sequence_counterexample :
    (∀ op ∈ ([] : List StepResult), op.status = some "SUCCESS" ∨ op.status = some "SKIPPED") ∧
    (¬ ∃ op ∈ ([] : List StepResult), op.status = some "FAILED") ∧
    check_backup_health (reportOf []) ≠ "SUCCESS" ∧
    check_backup_health (reportOf []) = "FAILED" :=
  ⟨by simp, by simp, by decide, rfl⟩

/-- C5 (amended): for every sequence with no FAILED entry, at least one
WARNING entry forces WARNING; and every such NON-EMPTY sequence whose
entries are all SUCCESS or SKIPPED yields SUCCESS — SKIPPED entries never
change the result (the empty sequence instead yields FAILED by rule 1). -/
theorem c5_no_failed_rules_amended (ops : List StepResult)
    (hnf : ∀ op ∈ ops, op.status ≠ some "FAILED") :
    ((∃ op ∈ ops, op.status = some "WARNING") →
        check_backup_health (reportOf ops) = "WARNING") ∧
    (ops ≠ [] → (∀ op ∈ ops, op.status = some "SUCCESS" ∨ op.status = some "SKIPPED") →
        check_backup_health (reportOf ops) = "SUCCESS") := by
  have hfe : ops.filter (fun op => op.status == some "FAILED") = [] :=
    filterNilOfForall _ _ (fun op hm => by simpa using hnf op hm)
  constructor
  · rintro ⟨op, hmem, hst⟩
    have hne : ops ≠ [] := by
      intro h0; rw [h0] at hmem; exact absurd hmem (List.not_mem_nil op)
    have hempty : ops.isEmpty = false := by
      cases ops with
      | nil => exact absurd rfl hne
      | cons a as => rfl
    have hwf : op ∈ ops.filter (fun op => op.status == some "WARNING") :=
      List.mem_filter.mpr ⟨hmem, by simp [hst]⟩
    have hwe : (ops.filter (fun op => op.status == some "WARNING")).isEmpty = false := by
      cases hh : ops.filter (fun op => op.status == some "WARNING") with
      | nil => rw [hh] at hwf; exact absurd hwf (List.not_mem_nil op)
      | cons a as => rfl
    simp [check_backup_health, reportOf, hempty, hfe, hwe]
  · intro hne hall
    have hempty : ops.isEmpty = false := by
      cases ops with
      | nil => exact absurd rfl hne
      | cons a as => rfl
    have hwe : ops.filter (fun op => op.status == some "WARNING") = [] :=
      filterNilOfForall _ _ (fun op hm => by
        rcases hall op hm with h | h <;> simp [h])
    simp [check_backup_health, reportOf, hempty, hfe, hwe]

/-- C5 witness: the amended rules applied to a WARNING-plus-SKIPPED list
and to a SUCCESS-plus-SKIPPED list. -/
theorem c5_no_failed_rules_amended_witness :
    check_backup_health (reportOf [{ status := some "WARNING" }, { status := some "SKIPPED" }]) = "WARNING" ∧
    check_backup_health (reportOf [{ status := some "SUCCESS" }, { status := some "SKIPPED" }]) = "SUCCESS" :=
  ⟨(c5_no_failed_rules_amended [{ status := some "WARNING" }, { status := some "SKIPPED" }]
      (by intro op hm; fin_cases hm <;> simp)).1
      ⟨{ status := some "WARNING" }, by simp, rfl⟩,
   (c5_no_failed_rules_amended [{ status := some "SUCCESS" }, { status := some "SKIPPED" }]
      (by intro op hm; fin_cases hm <;> simp)).2
      (by simp) (by intro op hm; fin_cases hm <;> simp)⟩

/-- C6 counterexample: a step whose underlying action raises an exception
with an empty description (`str(e) = ''`) yields a FAILED StepResult whose
`error` is the EMPTY string — the claim's "non-empty error description"
fails, even though the exception is contained and status is FAILED. -/
theorem c6_empty_error_counterexample :
    (backup_kubernetes_resources envProd { describeCluster := Except.error "" } s3AlwaysOk "t0").status = some "FAILED" ∧
    (backup_kubernetes_resources envProd { describeCluster := Except.error "" } s3AlwaysOk "t0").error = some "" ∧
    ("" : String).length = 0 :=
  ⟨rfl, rfl, rfl⟩

/-- C6 (amended): whenever a step's underlying action raises, the step
returns (never propagates) a FAILED StepResult whose `error` equals the
exception's description — non-empty exactly when that description is — and
with the concrete steps wired in, the handler always appends all four step
results, so no step failure aborts subsequent steps.  Shown for each of
the four step functions' raising collaborators. -/
theorem c6_step_failure_contained_amended (lenv : LambdaEnv) (eks : EKSWorld)
    (s3 : S3World) (rds : RDSWorld) (ts tsIso e : String)
    (snap : String → Except String Nat) (rep : Report) (he : e ≠ "") :
    ((backup_kubernetes_resources lenv { describeCluster := Except.error e } s3 ts).status = some "FAILED" ∧
     (backup_kubernetes_resources lenv { describeCluster := Except.error e } s3 ts).error = some e) ∧
    ((verify_rds_backups lenv.environment { describeDBInstances := Except.error e, describeDBSnapshots := snap }).status = some "FAILED" ∧
     (verify_rds_backups lenv.environment { describeDBInstances := Except.error e, describeDBSnapshots := snap }).error = some e) ∧
    ((backup_application_data lenv { putObject := fun _ _ => Except.error e } ts).status = some "FAILED" ∧
     (backup_application_data lenv { putObject := fun _ _ => Except.error e } ts).error = some e) ∧
    ((upload_backup_metadata lenv { putObject := fun _ _ => Except.error e } ts rep).status = some "FAILED" ∧
     (upload_backup_metadata lenv { putObject := fun _ _ => Except.error e } ts rep).error = some e) ∧
    (some e ≠ (some "" : Option String)) ∧
    ((lambda_handler lenv eks s3 rds tsIso ts).body.backup_operations.length = 4) := by
  refine ⟨⟨rfl, rfl⟩, ⟨rfl, rfl⟩, ⟨rfl, rfl⟩, ⟨rfl, rfl⟩, ?_, rfl⟩
  intro hcon
  exact he (Option.some.inj hcon)

/-- C6 witness: the amended containment applied to a concrete raising
collaborator with description `boom`. -/
theorem c6_step_failure_contained_witness :
    ((backup_kubernetes_resources envProd { describeCluster := Except.error "boom" } s3AlwaysOk "t0").status = some "FAILED" ∧
     (backup_kubernetes_resources envProd { describeCluster := Except.error "boom" } s3AlwaysOk "t0").error = some "boom") ∧
    ((verify_rds_backups envProd.environment { describeDBInstances := Except.error "boom", describeDBSnapshots := fun _ => Except.ok 0 }).status = some "FAILED" ∧
     (verify_rds_backups envProd.environment { describeDBInstances := Except.error "boom", describeDBSnapshots := fun _ => Except.ok 0 }).error = some "boom") ∧
    ((backup_application_data envProd { putObject := fun _ _ => Except.error "boom" } "t0").status = some "FAILED" ∧
     (backup_application_data envProd { putObject := fun _ _ => Except.error "boom" } "t0").error = some "boom") ∧
    ((upload_backup_metadata envProd { putObject := fun _ _ => Except.error "boom" } "t0" (reportOf [])).status = some "FAILED" ∧
     (upload_backup_metadata envProd { putObject := fun _ _ => Except.error "boom" } "t0" (reportOf [])).error = some "boom") ∧
    (some "boom" ≠ (some "" : Option String)) ∧
    ((lambda_handler envProd eksActive s3AlwaysOk rdsNoInstances "T0" "t0").body.backup_operations.length = 4) :=
  c6_step_failure_contained_amended envProd eksActive s3AlwaysOk rdsNoInstances "t0" "T0"
    "boom" (fun _ => Except.ok 0) (reportOf []) (by decide)

/-- C7: if an exception escapes a step call during the run, the handler
catches it at the top level, keeps the step results appended so far, sets
`error` to the exception's description and `overall_status` to FAILED, and
returns the report with status code 500 instead of propagating (the Lean
embedding of the handler is a total function, so it never raises).  Stated
for an escape at each of the four step positions. -/
theorem c7_top_level_catch (lenv : LambdaEnv) (ts : String) (w : HandlerWorld) (e : String) :
    (w.k8sStep = Except.error e →
      handler lenv ts w =
        { statusCode := 500,
          body := { timestamp := ts, environment := lenv.environment,
                    cluster_name := lenv.cluster_name, backup_operations := [],
                    overall_status := some "FAILED", error := some e } }) ∧
    (∀ a, w.k8sStep = Except.ok a → w.rdsStep = Except.error e →
      handler lenv ts w =
        { statusCode := 500,
          body := { timestamp := ts, environment := lenv.environment,
                    cluster_name := lenv.cluster_name, backup_operations := [a],
                    overall_status := some "FAILED", error := some e } }) ∧
    (∀ a b, w.k8sStep = Except.ok a → w.rdsStep = Except.ok b →
      w.appStep = Except.error e →
      handler lenv ts w =
        { statusCode := 500,
          body := { timestamp := ts, environment := lenv.environment,
                    cluster_name := lenv.cluster_name, backup_operations := [a, b],
                    overall_status := some "FAILED", error := some e } }) ∧
    (∀ a b c, w.k8sStep = Except.ok a → w.rdsStep = Except.ok b →
      w.appStep = Except.ok c →
      w.metadataStep { timestamp := ts, environment := lenv.environment,
                       cluster_name := lenv.cluster_name,
                       backup_operations := [a, b, c] } = Except.error e →
      handler lenv ts w =
        { statusCode := 500,
          body := { timestamp := ts, environment := lenv.environment,
                    cluster_name := lenv.cluster_name, backup_operations := [a, b, c],
                    overall_status := some "FAILED", error := some e } }) := by
  refine ⟨?_, ?_, ?_, ?_⟩
  · intro h1; simp [handler, handlerSteps, h1]
  · intro a h1 h2; simp [handler, handlerSteps, h1, h2]
  · intro a b h1 h2 h3; simp [handler, handlerSteps, h1, h2, h3]
  · intro a b c h1 h2 h3 h4; simp [handler, handlerSteps, h1, h2, h3, h4]

/-- C7 witness: the top-level catch applied to a world whose first step
call raises with description `boom`. -/
theorem c7_top_level_catch_witness :
    handler envProd "T0"
      { k8sStep := Except.error "boom", rdsStep := Except.ok { status := some "SUCCESS" },
        appStep := Except.ok { status := some "SUCCESS" },
        metadataStep := fun _ => Except.ok { status := some "SUCCESS" } } =
      { statusCode := 500,
        body := { timestamp := "T0", environment := "prod", cluster_name := "main",
                  backup_operations := [],
                  overall_status := some "FAILED", error := some "boom" } } :=
  (c7_top_level_catch envProd "T0"
      { k8sStep := Except.error "boom", rdsStep := Except.ok { status := some "SUCCESS" },
        appStep := Except.ok { status := some "SUCCESS" },
        metadataStep := fun _ => Except.ok { status := some "SUCCESS" } } "boom").1 rfl

/-- C8: running the handler twice with the same context and the same
deterministic step collaborators (stubbed to fixed StepResults) gives
reports that agree on every field except `timestamp`, and equal status
codes. -/
theorem c8_idempotent_modulo_timestamp (lenv : LambdaEnv) (ts1 ts2 : String)
    (a b c m : StepResult) :
    (handler lenv ts1 ⟨Except.ok a, Except.ok b, Except.ok c, fun _ => Except.ok m⟩).body
      = { (handler lenv ts2 ⟨Except.ok a, Except.ok b, Except.ok c, fun _ => Except.ok m⟩).body
          with timestamp := ts1 } ∧
    (handler lenv ts1 ⟨Except.ok a, Except.ok b, Except.ok c, fun _ => Except.ok m⟩).body.timestamp = ts1 ∧
    (handler lenv ts2 ⟨Except.ok a, Except.ok b, Except.ok c, fun _ => Except.ok m⟩).body.timestamp = ts2 ∧
    (handler lenv ts1 ⟨Except.ok a, Except.ok b, Except.ok c, fun _ => Except.ok m⟩).statusCode
      = (handler lenv ts2 ⟨Except.ok a, Except.ok b, Except.ok c, fun _ => Except.ok m⟩).statusCode :=
  ⟨rfl, rfl, rfl, rfl⟩

/-- C9: the health evaluation treats every entry whose status is anything
other than exactly FAILED or WARNING — including unrecognized strings such
as DISABLED and entries with no status at all — as neutral, so any
non-empty list of such entries evaluates to SUCCESS. -/
theorem c9_unrecognized_status_neutral (ops : List StepResult) (hne : ops ≠ [])
    (h : ∀ op ∈ ops, op.status ≠ some "FAILED" ∧ op.status ≠ some "WARNING") :
    check_backup_health (reportOf ops) = "SUCCESS" := by
  have hempty : ops.isEmpty = false := by
    cases ops with
    | nil => exact absurd rfl hne
    | cons a as => rfl
  have hfe : ops.filter (fun op => op.status == some "FAILED") = [] :=
    filterNilOfForall _ _ (fun op hm => by simp [(h op hm).1])
  have hwe : ops.filter (fun op => op.status == some "WARNING") = [] :=
    filterNilOfForall _ _ (fun op hm => by simp [(h op hm).2])
  simp [check_backup_health, reportOf, hempty, hfe, hwe]

/-- C9 witness: a DISABLED entry plus an entry with no status evaluate to
SUCCESS. -/
theorem c9_unrecognized_status_neutral_witness :
    check_backup_health (reportOf [{ status := some "DISABLED" }, { status := none }]) = "SUCCESS" :=
  c9_unrecognized_status_neutral [{ status := some "DISABLED" }, { status := none }]
    (by simp) (by intro op hm; fin_cases hm <;> simp)

/-- C10: when no managed database instance matches the environment — the
filtered instance list is empty — the verification step's per-resource
status list is empty and its aggregated status is SUCCESS, the
all-resources check holding vacuously. -/
theorem c10_no_matching_instances_success (environment : String) (world : RDSWorld)
    (dbs : List DBInstance)
    (h1 : world.describeDBInstances = Except.ok dbs)
    (h2 : dbs.filter (fun inst => pyIn environment inst.dbInstanceIdentifier) = []) :
    verify_rds_backups environment world
      = { operation := some "rds_backup_verification", status := some "SUCCESS",
          instances := some [] } := by
  unfold verify_rds_backups
  rw [h1]
  simp only [bind, Except.bind, h2, rdsStatusList]
  rfl

/-- C10 witness: the vacuous-success rule applied to a collaborator whose
single instance identifier does not contain the environment name. -/
theorem c10_no_matching_instances_success_witness :
    verify_rds_backups "prod" rdsNoMatch
      = { operation := some "rds_backup_verification", status := some "SUCCESS",
          instances := some [] } :=
  c10_no_matching_instances_success "prod" rdsNoMatch
    [{ dbInstanceIdentifier := "other-db", backupRetentionPeriod := some 7 }]
    rfl (by decide)
